import Mathlib

/-!
# Verification of the airports nearest-facility query engine

Shallow embedding of `src/services/airportService.js`.

The service issues SQL queries against a PostgreSQL `airports` table.  We
model a query result row as the catalog record together with the computed
`distance` column, and each SQL clause as the corresponding list operation:
`WHERE` as `List.filter`, `ORDER BY` as a sort producing a list ordered by
the sort key (`List.insertionSort`, a stable sort, models the store's
deterministic ordering), `LIMIT n` as `List.take n`.

Numeric values are modelled over an arbitrary `LinearOrderedField K`
(instantiated at `ℚ` for executable checks and at `ℝ` for statements about
the exact great-circle distance).  The transcendental functions evaluated by
the JavaScript runtime (`Math.cos`, `Math.PI`) and by SQL (`acos`, `cos`,
`sin`) only exist over `ℝ`; the query pipeline therefore takes the cosine
function and the value of π as parameters (`cosK`, `piK`) and the distance
column as a function parameter `dist`, which the real-valued statements
instantiate with `Real.cos`, `Real.pi` and the `6371 * acos(...)` formula
(`distanceKm` below) exactly as written in `buildGeoQuery`.
-/

/-- A row of the `airports` table (the catalog record), with coordinates in
an abstract ordered field `K`. Fields follow `SELECT icao, name, latitude,
longitude, city, country, elevation, type` in `buildGeoQuery`. -/
structure Airport (K : Type) where
  icao : String
  name : String
  latitude : K
  longitude : K
  city : String
  country : String
  elevation : Int
  type : String
deriving DecidableEq

/-- The object built by `formatAirport(airport)` (the `includeDistance =
false` branch: no `distance` field). -/
structure FormattedAirport (K : Type) where
  icao : String
  name : String
  lat : K
  lon : K
  city : String
  country : String
  elevation : Int
  type : String
deriving DecidableEq

/-- The object built by `formatAirport(airport, true)` (the geo-query
branch: the computed `distance` column is included). -/
structure FormattedAirportDist (K : Type) where
  icao : String
  name : String
  lat : K
  lon : K
  city : String
  country : String
  elevation : Int
  type : String
  distance : K
deriving DecidableEq

/-- `formatAirport(airport)` without distance. -/
def formatAirport {K : Type} (a : Airport K) : FormattedAirport K :=
  { icao := a.icao, name := a.name, lat := a.latitude, lon := a.longitude,
    city := a.city, country := a.country, elevation := a.elevation, type := a.type }

/-- `formatAirport(airport, true)`: the row's `distance` column is attached. -/
def formatAirportDist {K : Type} (a : Airport K) (d : K) : FormattedAirportDist K :=
  { icao := a.icao, name := a.name, lat := a.latitude, lon := a.longitude,
    city := a.city, country := a.country, elevation := a.elevation, type := a.type,
    distance := d }

/-- The rectangle pre-filter
`latitude BETWEEN $1 - $3 AND $1 + $3 AND longitude BETWEEN $2 - $4 AND $2 + $4`
($1 = lat, $2 = lon, $3 = latRange, $4 = lonRange). -/
def inBox {K : Type} [LinearOrderedField K] (lat lon latR lonR : K) (a : Airport K) : Bool :=
  decide (lat - latR ≤ a.latitude) && decide (a.latitude ≤ lat + latR) &&
    decide (lon - lonR ≤ a.longitude) && decide (a.longitude ≤ lon + lonR)

/-- The category filter: `types.length > 0 ? 'AND type = ANY($5)' : ''` —
the clause `type = ANY(types)` is appended only when `types` is non-empty,
so an empty list imposes no restriction. -/
def typeMatch {K : Type} (types : List String) (a : Airport K) : Bool :=
  if 0 < types.length then types.contains a.type else true

/-- `latRange = maxDistance === Infinity ? 90 : maxDistance / 111`.
`maxDistance = Infinity` is modelled as `none`. -/
def latRangeK {K : Type} [LinearOrderedField K] (maxDistance : Option K) : K :=
  match maxDistance with
  | none => 90
  | some r => r / 111

/-- `lonRange = maxDistance === Infinity ? 180
: maxDistance / (111 * Math.cos(lat * Math.PI / 180))`, with the runtime's
cosine and π abstracted as `cosK` and `piK`. -/
def lonRangeK {K : Type} [LinearOrderedField K] (cosK : K → K) (piK : K)
    (lat : K) (maxDistance : Option K) : K :=
  match maxDistance with
  | none => 180
  | some r => r / (111 * cosK (lat * piK / 180))

/-- The rows produced by `buildGeoQuery()` with the `WHERE` rectangle and
category clauses and `ORDER BY distance`: each surviving catalog record is
paired with its computed `distance` column (`dist a`), and the rows are
ordered by that column. -/
def geoRows {K : Type} [LinearOrderedField K] (dist : Airport K → K)
    (catalog : List (Airport K)) (lat lon latR lonR : K) (types : List String) :
    List (Airport K × K) :=
  ((catalog.filter (fun a => inBox lat lon latR lonR a && typeMatch types a)).map
      (fun a => (a, dist a))).insertionSort (fun p q => p.2 ≤ q.2)

/-- The ordered row set of either geo query, with the ranges computed from
`maxDistance` exactly as in lines 31–32 / 59–60 of the source. -/
def queryRows {K : Type} [LinearOrderedField K] (cosK : K → K) (piK : K)
    (dist : Airport K → K) (catalog : List (Airport K)) (lat lon : K)
    (maxDistance : Option K) (types : List String) : List (Airport K × K) :=
  geoRows dist catalog lat lon (latRangeK maxDistance) (lonRangeK cosK piK lat maxDistance)
    types

/-- The post-retrieval radius check of line 77:
`maxDistance === Infinity || parseFloat(a.distance) <= maxDistance`. -/
def radiusOk {K : Type} [LinearOrderedField K] (maxDistance : Option K) (d : K) : Bool :=
  match maxDistance with
  | none => true
  | some r => decide (d ≤ r)

/-- `findNearestAirports(lat, lon, limit, maxDistance, types)`: the SQL
query (rectangle + category filter, ordered by distance, `LIMIT $5`),
then the JavaScript radius filter and `formatAirport(a, true)`. -/
def findNearestAirports {K : Type} [LinearOrderedField K] (cosK : K → K) (piK : K)
    (dist : Airport K → K) (catalog : List (Airport K)) (lat lon : K) (lim : Nat)
    (maxDistance : Option K) (types : List String) : List (FormattedAirportDist K) :=
  (((queryRows cosK piK dist catalog lat lon maxDistance types).take lim).filter
      (fun p => radiusOk maxDistance p.2)).map (fun p => formatAirportDist p.1 p.2)

/-- `findNearestAirport(lat, lon, maxDistance, types)`: the same query with
`LIMIT 1`, then
`if (rows.length === 0 || (maxDistance !== Infinity && rows[0].distance > maxDistance)) return null`.
-/
def findNearestAirport {K : Type} [LinearOrderedField K] (cosK : K → K) (piK : K)
    (dist : Airport K → K) (catalog : List (Airport K)) (lat lon : K)
    (maxDistance : Option K) (types : List String) : Option (FormattedAirportDist K) :=
  match (queryRows cosK piK dist catalog lat lon maxDistance types).take 1 with
  | [] => none
  | b :: _ =>
    match maxDistance with
    | none => some (formatAirportDist b.1 b.2)
    | some r => if b.2 > r then none else some (formatAirportDist b.1 b.2)

/-- The default value of the `types` parameter in both geo functions:
`['large_airport', 'medium_airport', 'small_airport']`. -/
def defaultTypes : List String :=
  ["large_airport", "medium_airport", "small_airport"]

/-- `radians(x)` as computed inside the SQL query: `x * π / 180`. -/
noncomputable def radians (x : ℝ) : ℝ := x * Real.pi / 180

/-- The argument handed to `acos` in `buildGeoQuery`:
`cos(radians($1)) * cos(radians(latitude)) * cos(radians(longitude) - radians($2))
+ sin(radians($1)) * sin(radians(latitude))` with `$1 = lat0`, `$2 = lon0`. -/
noncomputable def acosArg (lat0 lon0 lat1 lon1 : ℝ) : ℝ :=
  Real.cos (radians lat0) * Real.cos (radians lat1) *
      Real.cos (radians lon1 - radians lon0) +
    Real.sin (radians lat0) * Real.sin (radians lat1)

/-- The `distance` column of `buildGeoQuery`: `6371 * acos(...)`. -/
noncomputable def distanceKm (lat0 lon0 lat1 lon1 : ℝ) : ℝ :=
  6371 * Real.arccos (acosArg lat0 lon0 lat1 lon1)

/-- The real-valued longitude range of lines 32/60, instantiating the
abstract pipeline parameters at the runtime's `Math.cos` and `Math.PI`. -/
noncomputable def lonRange (lat : ℝ) (maxDistance : Option ℝ) : ℝ :=
  lonRangeK Real.cos Real.pi lat maxDistance

/-- SQL `LIKE` pattern matching over character lists, with PostgreSQL's
default escape character `\`: `\x` matches the literal character `x` (so
`\%`, `\_`, `\\` match `%`, `_`, `\` themselves), `%` matches any sequence
(equivalently, some suffix of the text matches the rest of the pattern),
`_` matches exactly one character, any other pattern character matches
itself.  A pattern ending in a dangling escape matches nothing (PostgreSQL
raises an error there; the patterns `%q%` and `q%` built by `searchByName`
never end in an unescaped `\`, since their last character is `%` and any
run of backslashes before it either pairs up inside `q` or escapes that
closing `%`). -/
def likeMatch : List Char → List Char → Bool
  | [], s => s.isEmpty
  | '\\' :: ps, s =>
    match ps, s with
    | [], _ => false
    | _ :: _, [] => false
    | p :: ps', c :: s' => p == c && likeMatch ps' s'
  | '%' :: ps, s => s.tails.any (fun t => likeMatch ps t)
  | '_' :: ps, s =>
    match s with
    | [] => false
    | _ :: s' => likeMatch ps s'
  | p :: ps, s =>
    match s with
    | [] => false
    | c :: s' => p == c && likeMatch ps s'

/-- `LOWER(s)`: SQL lower-casing of a text value, character by character. -/
def lowerChars (s : String) : List Char :=
  s.data.map Char.toLower

/-- The text comparison behind `ORDER BY ... name`: lexicographic order on
the characters (the store's byte-wise collation on ASCII names). -/
def lexLe : List Char → List Char → Bool
  | [], _ => true
  | _ :: _, [] => false
  | a :: as, b :: bs => if a < b then true else if b < a then false else lexLe as bs

/-- The `CASE` rank of `searchByName`'s `ORDER BY`:
`CASE WHEN LOWER(name) LIKE LOWER($2) THEN 1 WHEN LOWER(city) LIKE LOWER($2)
THEN 2 ELSE 3 END`, where `$2` is the pattern `q%` (here `pat2`). -/
def likeRank {K : Type} (pat2 : List Char) (a : Airport K) : Nat :=
  if likeMatch pat2 (lowerChars a.name) then 1
  else if likeMatch pat2 (lowerChars a.city) then 2
  else 3

/-- `searchByName(name, limit)`: rows with
`LOWER(name) LIKE LOWER($1) OR LOWER(city) LIKE LOWER($1)` where `$1` is the
parameter `'%' + q + '%'` (its characters: `'%' :: q.data ++ ['%']`), ordered
by the `CASE` rank and then by `name`, truncated by `LIMIT $3`, formatted
without distance. -/
def searchByName {K : Type} [LinearOrderedField K] (catalog : List (Airport K))
    (q : String) (lim : Nat) : List (FormattedAirport K) :=
  let pat1 : List Char := ('%' :: (q.data ++ ['%'])).map Char.toLower
  let pat2 : List Char := (q.data ++ ['%']).map Char.toLower
  let rows := catalog.filter fun a =>
    likeMatch pat1 (lowerChars a.name) || likeMatch pat1 (lowerChars a.city)
  let ranked := rows.insertionSort fun a b =>
    likeRank pat2 a < likeRank pat2 b ∨
      (likeRank pat2 a = likeRank pat2 b ∧ lexLe a.name.data b.name.data = true)
  (ranked.take lim).map formatAirport

/-- The rank of the specification's §4.3 wording: 1 if the (lower-cased)
name starts with `q`, 2 if the municipality starts with `q` and the name
does not, 3 otherwise.  Used to compare `searchByName`'s ordering with the
spec's ranking. -/
def specRank (q name city : String) : Nat :=
  if lowerChars q <+: lowerChars name then 1
  else if lowerChars q <+: lowerChars city then 2
  else 3

/-! ## Lemmas about the `LIKE` matcher -/

lemma likeMatch_pct (ps s : List Char) :
    likeMatch ('%' :: ps) s = s.tails.any (fun t => likeMatch ps t) := rfl

lemma likeMatch_cons_nil (p : Char) (ps : List Char) (hp : p ≠ '%') :
    likeMatch (p :: ps) [] = false := by
  rcases eq_or_ne p '_' with h | h
  · subst h; rfl
  · rcases eq_or_ne p '\\' with h2 | h2
    · subst h2
      cases ps <;> rfl
    · rw [likeMatch]
      all_goals first | exact hp | exact h | exact h2

lemma likeMatch_cons_cons (p : Char) (ps : List Char) (hp : p ≠ '%') (hu : p ≠ '_')
    (hb : p ≠ '\\') (c : Char) (s : List Char) :
    likeMatch (p :: ps) (c :: s) = (p == c && likeMatch ps s) := by
  rw [likeMatch]
  all_goals first | exact hp | exact hu | exact hb

/-- A pattern free of wildcards and escapes, followed by `%`, matches
exactly the texts the pattern is a prefix of. -/
lemma likeMatch_append_pct (p : List Char) (hp : '%' ∉ p) (hu : '_' ∉ p)
    (hb : '\\' ∉ p) :
    ∀ s, (likeMatch (p ++ ['%']) s = true ↔ p <+: s) := by
  induction p with
  | nil =>
    intro s
    simp only [List.nil_append, likeMatch_pct, List.any_eq_true, List.nil_prefix, iff_true]
    exact ⟨[], by simp [List.mem_tails], rfl⟩
  | cons a p ih =>
    have ha1 : a ≠ '%' := fun h => hp (h ▸ List.mem_cons_self a p)
    have ha2 : a ≠ '_' := fun h => hu (h ▸ List.mem_cons_self a p)
    have ha3 : a ≠ '\\' := fun h => hb (h ▸ List.mem_cons_self a p)
    have hp' : '%' ∉ p := fun h => hp (List.mem_cons_of_mem a h)
    have hu' : '_' ∉ p := fun h => hu (List.mem_cons_of_mem a h)
    have hb' : '\\' ∉ p := fun h => hb (List.mem_cons_of_mem a h)
    intro s
    cases s with
    | nil =>
      rw [List.cons_append, likeMatch_cons_nil a _ ha1]
      simp
    | cons c s' =>
      rw [List.cons_append, likeMatch_cons_cons a _ ha1 ha2 ha3, Bool.and_eq_true,
        beq_iff_eq, List.cons_prefix_cons, ih hp' hu' hb' s']

/-- A pattern free of wildcards and escapes, placed between two `%`,
matches exactly the texts that contain it as a contiguous substring. -/
lemma likeMatch_contains (p : List Char) (hp : '%' ∉ p) (hu : '_' ∉ p)
    (hb : '\\' ∉ p) (s : List Char) :
    likeMatch ('%' :: (p ++ ['%'])) s = true ↔ p <:+: s := by
  rw [likeMatch_pct, List.any_eq_true]
  constructor
  · rintro ⟨t, ht, hf⟩
    obtain ⟨u, hus⟩ := (List.mem_tails _ _).mp ht
    obtain ⟨v, hvt⟩ := (likeMatch_append_pct p hp hu hb t).mp hf
    exact ⟨u, v, by rw [← hus, ← hvt, List.append_assoc]⟩
  · rintro ⟨u, v, rfl⟩
    refine ⟨p ++ v, ?_, ?_⟩
    · rw [List.mem_tails, List.append_assoc]
      exact List.suffix_append u (p ++ v)
    · exact (likeMatch_append_pct p hp hu hb (p ++ v)).mpr ( List.prefix_append p v)

/-- The pattern built from the empty query, `%%`, matches every text. -/
lemma likeMatch_pct_pct (s : List Char) : likeMatch ['%', '%'] s = true := by
  have h := (likeMatch_contains [] (by simp) (by simp) (by simp) s).mpr
    ( List.nil_infix (l := s))
  simpa using h

/-! ## Lemmas about the name collation -/

lemma lexLe_total : ∀ xs ys, lexLe xs ys = true ∨ lexLe ys xs = true := by
  intro xs
  induction xs with
  | nil => intro ys; left; rfl
  | cons a as ih =>
    intro ys
    cases ys with
    | nil => right; rfl
    | cons b bs =>
      rcases lt_trichotomy a b with h | h | h
      · left; simp [lexLe, h]
      · subst h
        rcases ih bs with h' | h'
        · left; simp [lexLe, h', lt_irrefl]
        · right; simp [lexLe, h', lt_irrefl]
      · right; simp [lexLe, h]

lemma lexLe_trans : ∀ xs ys zs, lexLe xs ys = true → lexLe ys zs = true →
    lexLe xs zs = true := by
  intro xs
  induction xs with
  | nil => intro ys zs _ _; rfl
  | cons a as ih =>
    intro ys zs h1 h2
    cases ys with
    | nil => simp [lexLe] at h1
    | cons b bs =>
      cases zs with
      | nil => simp [lexLe] at h2
      | cons c cs =>
        by_cases hab : a < b
        · by_cases hbc : b < c
          · simp [lexLe, lt_trans hab hbc]
          · by_cases hcb : c < b
            · simp [lexLe, hbc, hcb] at h2
            · have hbc' : b = c := le_antisymm (not_lt.mp hcb) (not_lt.mp hbc)
              subst hbc'
              simp [lexLe, hab]
        · by_cases hba : b < a
          · simp [lexLe, hab, hba] at h1
          · have hab' : a = b := le_antisymm (not_lt.mp hba) (not_lt.mp hab)
            subst hab'
            by_cases hbc : a < c
            · simp [lexLe, hbc]
            · by_cases hcb : c < a
              · simp [lexLe, hbc, hcb] at h2
              · have hac : a = c := le_antisymm (not_lt.mp hcb) (not_lt.mp hbc)
                subst hac
                simp only [lexLe, lt_irrefl, if_false] at h1 h2 ⊢
                exact ih bs cs h1 h2

/-! ## Lemmas about the geo query pipeline -/

/-- Every result of `findNearestAirports` is a formatted catalog record
carrying its own computed distance, and it passed the radius check of
line 77. -/
lemma mem_findNearestAirports {K : Type} [LinearOrderedField K] {cosK : K → K} {piK : K}
    {dist : Airport K → K} {catalog : List (Airport K)} {lat lon : K} {lim : Nat}
    {maxDistance : Option K} {types : List String} {f : FormattedAirportDist K}
    (hf : f ∈ findNearestAirports cosK piK dist catalog lat lon lim maxDistance types) :
    ∃ a, a ∈ catalog ∧ f = formatAirportDist a (dist a) ∧
      radiusOk maxDistance (dist a) = true := by
  unfold findNearestAirports at hf
  obtain ⟨p, hp, rfl⟩ := List.mem_map.mp hf
  rw [List.mem_filter] at hp
  obtain ⟨hpt, hrad⟩ := hp
  have hpq : p ∈ queryRows cosK piK dist catalog lat lon maxDistance types :=
    (List.take_sublist _ _).subset hpt
  unfold queryRows geoRows at hpq
  rw [List.mem_insertionSort] at hpq
  obtain ⟨a, ha, rfl⟩ := List.mem_map.mp hpq
  exact ⟨a, (List.mem_filter.mp ha).1, rfl, hrad⟩

/-- C1: with a finite `maxDistance = r`, every facility returned by
`findNearestAirports` carries as its `distance` the exact great-circle
distance (the `6371 * acos(...)` formula of `buildGeoQuery`) from the query
point to its own coordinates, and that exact distance is at most `r`; no
result survives on the strength of the rectangle pre-filter alone. -/
theorem C1_radius_filter_exact (catalog : List (Airport ℝ)) (lat lon : ℝ) (lim : Nat)
    (r : ℝ) (types : List String) :
    (findNearestAirports Real.cos Real.pi
        (fun a => distanceKm lat lon a.latitude a.longitude) catalog lat lon lim (some r)
        types).all
      (fun f => decide (f.distance = distanceKm lat lon f.lat f.lon ∧
        distanceKm lat lon f.lat f.lon ≤ r)) = true := by
  rw [List.all_eq_true]
  intro f hf
  obtain ⟨a, _, rfl, hrad⟩ := mem_findNearestAirports hf
  rw [radiusOk, decide_eq_true_iff] at hrad
  rw [decide_eq_true_iff]
  exact ⟨rfl, hrad⟩

/-- C4: the list returned by `findNearestAirports` is ordered by
non-decreasing `distance` (the SQL `ORDER BY distance` before `LIMIT`,
preserved by the radius filter and the formatting map). -/
theorem C4_sorted_by_distance {K : Type} [LinearOrderedField K] (cosK : K → K) (piK : K)
    (dist : Airport K → K) (catalog : List (Airport K)) (lat lon : K) (lim : Nat)
    (maxDistance : Option K) (types : List String) :
    (findNearestAirports cosK piK dist catalog lat lon lim maxDistance types).Pairwise
      (fun f g => f.distance ≤ g.distance) := by
  unfold findNearestAirports
  refine List.pairwise_map.mpr ?_
  have hs : (queryRows cosK piK dist catalog lat lon maxDistance types).Pairwise
      (fun p q : Airport K × K => p.2 ≤ q.2) := by
    unfold queryRows geoRows
    haveI : IsTotal (Airport K × K) (fun p q => p.2 ≤ q.2) := ⟨fun p q => le_total p.2 q.2⟩
    haveI : IsTrans (Airport K × K) (fun p q => p.2 ≤ q.2) :=
      ⟨fun p q m h1 h2 => le_trans h1 h2⟩
    exact List.sorted_insertionSort _ _
  exact (hs.sublist (List.take_sublist _ _)).sublist (List.filter_sublist _)

/-- C5: `findNearestAirport` returns the "none found" sentinel `null`
exactly when the ordered candidate row set is empty, or `maxDistance` is
finite and the best candidate's computed distance exceeds it. -/
theorem C5_none_iff {K : Type} [LinearOrderedField K] (cosK : K → K) (piK : K)
    (dist : Airport K → K) (catalog : List (Airport K)) (lat lon : K)
    (maxDistance : Option K) (types : List String) :
    findNearestAirport cosK piK dist catalog lat lon maxDistance types = none ↔
      (queryRows cosK piK dist catalog lat lon maxDistance types = [] ∨
        ∃ r b, maxDistance = some r ∧
          (queryRows cosK piK dist catalog lat lon maxDistance types).head? = some b ∧
          r < b.2) := by
  unfold findNearestAirport
  cases hq : queryRows cosK piK dist catalog lat lon maxDistance types with
  | nil => simp
  | cons b t =>
    rw [List.take_succ_cons, List.take_zero]
    cases maxDistance with
    | none => simp
    | some r =>
      by_cases hr : b.2 > r
      · simp only [if_pos hr, List.head?_cons, true_iff]
        exact Or.inr ⟨r, b, rfl, rfl, hr⟩
      · simp only [if_neg hr, List.head?_cons]
        constructor
        · intro h; exact absurd h (by simp)
        · rintro (h | ⟨r', b', hr', hb', hlt⟩)
          · exact absurd h (by simp)
          · cases hr'
            cases hb'
            exact absurd hlt (not_lt.mpr (not_lt.mp hr))
  
/-- C6: with unbounded `maxDistance`, `findNearestAirport` agrees with the
head of `findNearestAirports` at `limit = 1` for the same query point and
category set (on any catalog; on a non-empty candidate set both return the
same facility, otherwise both report none). -/
theorem C6_one_eq_head {K : Type} [LinearOrderedField K] (cosK : K → K) (piK : K)
    (dist : Airport K → K) (catalog : List (Airport K)) (lat lon : K)
    (types : List String) :
    findNearestAirport cosK piK dist catalog lat lon none types =
      (findNearestAirports cosK piK dist catalog lat lon 1 none types).head? := by
  unfold findNearestAirport findNearestAirports
  cases hq : queryRows cosK piK dist catalog lat lon none types with
  | nil => simp
  | cons b t =>
    rw [List.take_succ_cons, List.take_zero]
    simp [radiusOk]

/-! ## The distance formula is total and non-negative (C9), and the
longitude range near a pole (C2) -/

/-- The spherical-law-of-cosines kernel is always within `[-1, 1]`. -/
lemma cos_cos_cos_add_sin_sin_le (a b θ : ℝ) :
    -1 ≤ Real.cos a * Real.cos b * Real.cos θ + Real.sin a * Real.sin b ∧
      Real.cos a * Real.cos b * Real.cos θ + Real.sin a * Real.sin b ≤ 1 := by
  have ha := Real.sin_sq_add_cos_sq a
  have hb := Real.sin_sq_add_cos_sq b
  have h1 := Real.neg_one_le_cos θ
  have h2 := Real.cos_le_one θ
  constructor
  · rcases le_or_lt 0 (Real.cos a * Real.cos b) with h | h
    · nlinarith [sq_nonneg (Real.sin a + Real.sin b), sq_nonneg (Real.cos a - Real.cos b)]
    · nlinarith [sq_nonneg (Real.sin a + Real.sin b), sq_nonneg (Real.cos a + Real.cos b)]
  · rcases le_or_lt 0 (Real.cos a * Real.cos b) with h | h
    · nlinarith [sq_nonneg (Real.sin a - Real.sin b), sq_nonneg (Real.cos a - Real.cos b)]
    · nlinarith [sq_nonneg (Real.sin a - Real.sin b), sq_nonneg (Real.cos a + Real.cos b)]

/-- C9: for every numeric latitude/longitude pair — in range or not — the
argument handed to `acos` in `buildGeoQuery` lies in `[-1, 1]` (so `acos`
is applied inside its domain and raises no error), and the computed
`distance` column is non-negative. -/
theorem C9_distance_total_nonneg (lat0 lon0 lat1 lon1 : ℝ) :
    -1 ≤ acosArg lat0 lon0 lat1 lon1 ∧ acosArg lat0 lon0 lat1 lon1 ≤ 1 ∧
      0 ≤ distanceKm lat0 lon0 lat1 lon1 := by
  obtain ⟨hl, hu⟩ := cos_cos_cos_add_sin_sin_le (radians lat0) (radians lat1)
    (radians lon1 - radians lon0)
  refine ⟨hl, hu, ?_⟩
  exact mul_nonneg (by norm_num) (Real.arccos_nonneg _)

/-- C2: at the near-pole query latitude `lat0 = 89.9` with
`maxDistance = 100` km, the longitude delta computed in lines 32/60 is a
positive finite value strictly greater than `180` — the divisor
`111 * cos(89.9°)` is strictly positive, so no division-by-zero or domain
error occurs, but the code applies no clamping to `180`, contradicting the
claimed clamping policy. -/
theorem C2_lonRange_exceeds_180 :
    0 < Real.cos ((89.9 : ℝ) * Real.pi / 180) ∧ 180 < lonRange 89.9 (some 100) := by
  have hπ2 : Real.pi < 3.15 := by
    have := Real.pi_lt_d2
    linarith
  have hθ : (89.9 : ℝ) * Real.pi / 180 = Real.pi / 2 - Real.pi / 1800 := by ring
  have hcos : Real.cos ((89.9 : ℝ) * Real.pi / 180) = Real.sin (Real.pi / 1800) := by
    rw [hθ, Real.cos_pi_div_two_sub]
  have hx : (0 : ℝ) < Real.pi / 1800 := by positivity
  have hs1 : Real.sin (Real.pi / 1800) < Real.pi / 1800 := Real.sin_lt hx
  have hs0 : 0 < Real.sin (Real.pi / 1800) := by
    apply Real.sin_pos_of_pos_of_lt_pi hx
    nlinarith [Real.pi_gt_three]
  constructor
  · rw [hcos]; exact hs0
  · show 180 < lonRangeK Real.cos Real.pi 89.9 (some 100)
    rw [lonRangeK, hcos, lt_div_iff₀ (by nlinarith)]
    nlinarith

/-! ## Concrete catalog records (coordinates over `ℚ`) for executable checks -/

/-- A heliport sitting right at the query point. -/
def heli : Airport ℚ :=
  { icao := "HELI", name := "City Heliport", latitude := 0, longitude := 0,
    city := "Capital", country := "FR", elevation := 10, type := "heliport" }

def parisCDG : Airport ℚ :=
  { icao := "LFPG", name := "Paris CDG", latitude := 49, longitude := 2,
    city := "Paris", country := "FR", elevation := 119, type := "large_airport" }

def parana : Airport ℚ :=
  { icao := "SBPR", name := "Parana Airport", latitude := -31, longitude := -60,
    city := "Parana", country := "AR", elevation := 10, type := "medium_airport" }

def leHavre : Airport ℚ :=
  { icao := "LFOH", name := "Le Havre", latitude := 49, longitude := 0,
    city := "Le Havre", country := "FR", elevation := 95, type := "small_airport" }

def demoCatalog : List (Airport ℚ) := [parisCDG, parana, leHavre]

def axb : Airport ℚ :=
  { icao := "AXB", name := "axb", latitude := 1, longitude := 2,
    city := "ax", country := "XX", elevation := 0, type := "small_airport" }

def helloWorldAirport : Airport ℚ :=
  { icao := "HWA", name := "Hello World Field", latitude := 3, longitude := 4,
    city := "Nowhere", country := "YY", elevation := 0, type := "small_airport" }

/-! ## C3: category filtering with empty vs absent `types` -/

/-- C3 counterexample: with the `types` argument absent, the JavaScript
default `['large_airport', 'medium_airport', 'small_airport']` applies, and
a heliport located exactly at the query point is filtered out — the absent
case does restrict by category, contradicting the claim that empty *or
absent* means no restriction. -/
theorem C3_counterexample :
    findNearestAirports (K := ℚ) (fun x => x) 3 (fun _ => 0) [heli] 0 0 5 none
      defaultTypes = [] := by
  have ht : typeMatch (K := ℚ) defaultTypes heli = false := by decide
  simp [findNearestAirports, queryRows, geoRows, List.filter_cons, ht]

/-- C3 amended: an *empty* `types` list genuinely imposes no category
restriction — the retrieval used by both `findNearestAirport` and
`findNearestAirports` degenerates to the pure rectangle filter, so a
candidate of any category (heliport, seaplane base, balloon port, closed,
unknown, ...) passes; an *absent* argument instead means `defaultTypes`. -/
theorem C3_empty_types_unrestricted {K : Type} [LinearOrderedField K]
    (dist : Airport K → K) (catalog : List (Airport K)) (lat lon latR lonR : K) :
    geoRows dist catalog lat lon latR lonR [] =
      ((catalog.filter (fun a => inBox lat lon latR lonR a)).map
          (fun a => (a, dist a))).insertionSort (fun p q => p.2 ≤ q.2) := by
  have h : (fun a : Airport K => inBox lat lon latR lonR a && typeMatch [] a) =
      fun a : Airport K => inBox lat lon latR lonR a := by
    funext a
    simp [typeMatch]
  rw [geoRows, h]

/-! ## C7 / C8 / C10: ranked text search -/

lemma pat1_eq (q : String) :
    ('%' :: (q.data ++ ['%'])).map Char.toLower = '%' :: (lowerChars q ++ ['%']) := by
  simp [lowerChars, show Char.toLower '%' = '%' from by decide]

lemma pat2_eq (q : String) :
    (q.data ++ ['%']).map Char.toLower = lowerChars q ++ ['%'] := by
  simp [lowerChars, show Char.toLower '%' = '%' from by decide]

/-- For a query free of wildcards and escapes the `CASE` rank computed from
the `LIKE` pattern `q%` coincides with the specification's prefix-based
rank. -/
lemma likeRank_eq_specRank {K : Type} (q : String) (h1 : '%' ∉ lowerChars q)
    (h2 : '_' ∉ lowerChars q) (h3 : '\\' ∉ lowerChars q) (a : Airport K) :
    likeRank ((q.data ++ ['%']).map Char.toLower) a = specRank q a.name a.city := by
  rw [pat2_eq, likeRank, specRank]
  by_cases hn : lowerChars q <+: lowerChars a.name
  · rw [if_pos ((likeMatch_append_pct _ h1 h2 h3 _).mpr hn), if_pos hn]
  · rw [if_neg (fun h => hn ((likeMatch_append_pct _ h1 h2 h3 _).mp h)), if_neg hn]
    by_cases hc : lowerChars q <+: lowerChars a.city
    · rw [if_pos ((likeMatch_append_pct _ h1 h2 h3 _).mpr hc), if_pos hc]
    · rw [if_neg (fun h => hc ((likeMatch_append_pct _ h1 h2 h3 _).mp h)), if_neg hc]

/-- C7 (amended): for every non-empty query `q` free of the SQL `LIKE`
wildcards `%` and `_` and of the default escape character `\`,
`searchByName` returns only facilities whose name or municipality contains
`q` as a case-insensitive substring, and the returned list is ordered first
by the specification's rank (1: name starts with `q`; 2: municipality
starts with `q` and name does not; 3: substring elsewhere) and
alphabetically by name within equal rank.  (For `q` containing a wildcard
the substring property fails, see the counterexample; for `q` containing
`\` the pattern's escape semantics likewise diverge from literal
matching.) -/
theorem C7_ranked_text_search {K : Type} [LinearOrderedField K]
    (catalog : List (Airport K)) (q : String) (lim : Nat) (_hq : q ≠ "")
    (h1 : '%' ∉ lowerChars q) (h2 : '_' ∉ lowerChars q)
    (h3 : '\\' ∉ lowerChars q) :
    (∀ f ∈ searchByName catalog q lim,
        lowerChars q <:+: lowerChars f.name ∨ lowerChars q <:+: lowerChars f.city) ∧
      (searchByName catalog q lim).Pairwise (fun f g =>
        specRank q f.name f.city ≤ specRank q g.name g.city ∧
          (specRank q f.name f.city = specRank q g.name g.city →
            lexLe f.name.data g.name.data = true)) := by
  unfold searchByName
  constructor
  · intro f hf
    obtain ⟨a, ha, rfl⟩ := List.mem_map.mp hf
    have ha' : a ∈ List.filter _ catalog :=
      (List.mem_insertionSort _).mp ((List.take_sublist _ _).subset ha)
    have hm := (List.mem_filter.mp ha').2
    rw [Bool.or_eq_true, pat1_eq] at hm
    rcases hm with hm | hm
    · exact Or.inl ((likeMatch_contains _ h1 h2 h3 _).mp hm)
    · exact Or.inr ((likeMatch_contains _ h1 h2 h3 _).mp hm)
  · set r := fun a b : Airport K =>
      likeRank ((q.data ++ ['%']).map Char.toLower) a <
          likeRank ((q.data ++ ['%']).map Char.toLower) b ∨
        (likeRank ((q.data ++ ['%']).map Char.toLower) a =
            likeRank ((q.data ++ ['%']).map Char.toLower) b ∧
          lexLe a.name.data b.name.data = true) with hr
    haveI : IsTotal (Airport K) r := by
      constructor
      intro a b
      rw [hr]
      rcases Nat.lt_trichotomy (likeRank ((q.data ++ ['%']).map Char.toLower) a)
        (likeRank ((q.data ++ ['%']).map Char.toLower) b) with h | h | h
      · exact Or.inl (Or.inl h)
      · rcases lexLe_total a.name.data b.name.data with h' | h'
        · exact Or.inl (Or.inr ⟨h, h'⟩)
        · exact Or.inr (Or.inr ⟨h.symm, h'⟩)
      · exact Or.inr (Or.inl h)
    haveI : IsTrans (Airport K) r := by
      constructor
      intro a b c hab hbc
      rw [hr] at hab hbc ⊢
      rcases hab with hab | ⟨hab, hab'⟩
      · rcases hbc with hbc | ⟨hbc, _⟩
        · exact Or.inl (lt_trans hab hbc)
        · exact Or.inl (hbc ▸ hab)
      · rcases hbc with hbc | ⟨hbc, hbc'⟩
        · exact Or.inl (hab ▸ hbc)
        · exact Or.inr ⟨hab.trans hbc, lexLe_trans _ _ _ hab' hbc'⟩
    have hs := List.sorted_insertionSort r
      (List.filter (fun a =>
        likeMatch (('%' :: (q.data ++ ['%'])).map Char.toLower) (lowerChars a.name) ||
          likeMatch (('%' :: (q.data ++ ['%'])).map Char.toLower) (lowerChars a.city))
        catalog)
    refine List.pairwise_map.mpr (((hs.sublist (List.take_sublist _ _))).imp ?_)
    intro a b hab
    rw [hr] at hab
    rw [likeRank_eq_specRank q h1 h2 h3 a, likeRank_eq_specRank q h1 h2 h3 b] at hab
    rcases hab with hab | ⟨hab, hab'⟩
    · exact ⟨le_of_lt hab, fun h => absurd (h ▸ hab) (lt_irrefl _)⟩
    · exact ⟨le_of_eq hab, fun _ => hab'⟩

/-- C7 counterexample: for the query `q = "a%b"` (which contains the SQL
wildcard `%`), `searchByName` returns the facility named `"axb"`, although
neither its name nor its municipality contains `"a%b"` as a literal
(case-insensitive) substring — the universally quantified claim fails for
queries containing `LIKE` wildcards. -/
theorem C7_counterexample :
    (searchByName (K := ℚ) [axb] "a%b" 10).map (fun f => f.name) = ["axb"] ∧
      ¬ (lowerChars "a%b" <:+: lowerChars "axb") ∧
      ¬ (lowerChars "a%b" <:+: lowerChars "ax") := by
  decide

/-- Witness for `C7_ranked_text_search` on the specification's own example
catalog (`Paris CDG`, `Parana Airport`, `Le Havre`) with `q = "par"`. -/
theorem C7_ranked_text_search_witness :
    (("par" : String) ≠ "" ∧ '%' ∉ lowerChars "par" ∧ '_' ∉ lowerChars "par" ∧
        '\\' ∉ lowerChars "par") ∧
      ((∀ f ∈ searchByName demoCatalog "par" 10,
          lowerChars "par" <:+: lowerChars f.name ∨
            lowerChars "par" <:+: lowerChars f.city) ∧
        (searchByName demoCatalog "par" 10).Pairwise (fun f g =>
          specRank "par" f.name f.city ≤ specRank "par" g.name g.city ∧
            (specRank "par" f.name f.city = specRank "par" g.name g.city →
              lexLe f.name.data g.name.data = true))) :=
  ⟨⟨by decide, by decide, by decide, by decide⟩,
    C7_ranked_text_search demoCatalog "par" 10 (by decide) (by decide) (by decide)
      (by decide)⟩

/-- C8 counterexample: `searchByName` performs no validation of the empty
query string — handed `q = ""` it builds the pattern `%%`, executes the
search, and returns the matching rows (here: the whole one-element catalog)
instead of rejecting the input. -/
theorem C8_counterexample :
    searchByName (K := ℚ) [heli] "" 5 = [formatAirport heli] := by
  decide

/-- C8 (amended): for the empty search text the core's `searchByName`
executes the query — the pattern `%%` matches every row, so the result is
the first `limit` rows of the sorted whole catalog; the synchronous
rejection of empty search text happens in the HTTP route layer
(`if (!code && !name)`), not in the core. -/
theorem C8_empty_text_not_rejected {K : Type} [LinearOrderedField K]
    (catalog : List (Airport K)) (lim : Nat) :
    (searchByName catalog "" lim).length = min lim catalog.length := by
  have hfil : List.filter (fun a : Airport K =>
      likeMatch (('%' :: (("" : String).data ++ ['%'])).map Char.toLower)
          (lowerChars a.name) ||
        likeMatch (('%' :: (("" : String).data ++ ['%'])).map Char.toLower)
          (lowerChars a.city)) catalog = catalog := by
    apply List.filter_eq_self.mpr
    intro a _
    have hp : ('%' :: ((("" : String).data ++ ['%']))).map Char.toLower = ['%', '%'] := by
      decide
    rw [hp, likeMatch_pct_pct, Bool.true_or]
  simp only [searchByName]
  rw [hfil, List.length_map, List.length_take, List.length_insertionSort]

/-- C10: `searchByName` interpolates the raw query into the `LIKE` pattern
without escaping, so `%` inside `q` acts as a multi-character wildcard:
with the one-facility catalog `helloWorldAirport` and `q = "h%d"` the
search returns the facility although neither its name `"Hello World
Field"` nor its municipality `"Nowhere"` contains `"h%d"` as a literal
(case-insensitive) substring. -/
theorem C10_wildcard_not_escaped :
    (searchByName (K := ℚ) [helloWorldAirport] "h%d" 10).map (fun f => f.icao) =
        ["HWA"] ∧
      ¬ (lowerChars "h%d" <:+: lowerChars "Hello World Field") ∧
      ¬ (lowerChars "h%d" <:+: lowerChars "Nowhere") := by
  decide
